import Mathlib

/-!
Shallow embedding of the configuration-assembly layer of the
`woopack-plugin-webpack` repository: the four environment-by-mode Webpack
configuration producers, the rules producer, the event-reducer pipeline
they all funnel their output through, and a small state model for the
entry deep-copy discipline and for the dev-middleware filesystem future.

Every definition is translated from the JavaScript sources under `src/`
(file and line references are given on each definition); JS objects become
Lean structures, JS arrays become lists, `undefined`-able fields become
`Option`, and the one place where the source can throw a `TypeError`
(reading the entry list of a missing first entry key) becomes `Option`.
-/

/-! ## Data model: `ConfigurationParams` and its parts -/

/-- `target.devServer` settings as read by
`browserDevelopmentConfiguration.js` (lines 113-141).  `port` and `host`
are optional: the source applies the JS falsy-default idiom
(`devServer.port || 2509`, `devServer.host || 'localhost'`). -/
structure DevServerParams where
  port : Option Nat
  host : Option String
  reload : Bool
  https : Bool
deriving DecidableEq

/-- `target.sourceMap` flags, one per build mode. -/
structure SourceMapFlags where
  development : Bool
  production : Bool
deriving DecidableEq

/-- `target.folders` (source/build folder paths). -/
structure TargetFolders where
  source : String
  build : String
deriving DecidableEq

/-- `target.paths` (only `source` is read by the embedded producers). -/
structure TargetPaths where
  source : String
deriving DecidableEq

/-- `target.html` (only `template` is read by the embedded producers). -/
structure HtmlSettings where
  template : String
deriving DecidableEq

/-- `target.libraryOptions` (browser production, line 110). -/
structure LibraryOptions where
  compress : Bool
deriving DecidableEq

/-- `target.is` environment classification flags. -/
structure TargetIs where
  node : Bool
  browser : Bool
deriving DecidableEq

/-- `target.css` stylesheet options (rules producer). -/
structure CssSettings where
  modules : Bool
  inject : Bool
deriving DecidableEq

/-- `target.watch` flags (node production, line 862). -/
structure WatchFlags where
  production : Bool
deriving DecidableEq

/-- The build target, with the fields the embedded producers read. -/
structure Target where
  name : String
  folders : TargetFolders
  paths : TargetPaths
  html : HtmlSettings
  sourceMap : SourceMapFlags
  hot : Bool
  runOnDevelopment : Bool
  devServer : DevServerParams
  library : Bool
  libraryOptions : LibraryOptions
  excludeModules : List String
  includeModules : List String
  css : CssSettings
  is : TargetIs
  watch : WatchFlags
deriving DecidableEq

/-- The `entry` mapping: entry-point name to ordered module specifiers.
An association list preserves JS key enumeration order
(`Object.keys(entry)[0]` is the head key). -/
abbrev EntryMap := List (String × List String)

/-- `output` filename templates. -/
structure OutputTemplates where
  js : String
  css : String
  jsChunks : String
  fonts : String
  images : String
deriving DecidableEq

/-- The `params` dictionary every `createConfig` receives. -/
structure ConfigurationParams where
  target : Target
  entry : EntryMap
  output : OutputTemplates
  definitions : List (String × String)
  copy : List String
  additionalWatch : List String
deriving DecidableEq

/-! ## The produced Webpack configuration object -/

/-- The plugin instances the producers can push, by constructor, carrying
the data the sources pass to them. -/
inductive WebpackPlugin where
  | extractText (filename : String)
  | htmlWebpack (template : String) (inject : String)
  | scriptExtHtml (defaultAttribute : String)
  | namedModules
  | hotModuleReplacement
  | noEmitOnErrors
  | define (definitions : List (String × String))
  | uglifyJS (sourceMap : Bool)
  | optimizeCssAssets
  | compression
  | copyWebpack (files : List String)
  | extraWatch (files : List String)
  | webpackNodeUtilsRunner
  | devServerLogger (port : Nat)
deriving DecidableEq

/-- A call to `webpackNodeUtils.externals(dependencies, devDependencies,
modules)`: the first argument is always the literal empty object in the
sources, so only the other two are recorded. -/
structure ExternalsCall where
  devDependencies : Bool
  modules : List String
deriving DecidableEq

/-- The `devServer` section built by the browser development producer
(lines 113-141). Fields the source only sets on some paths are `Option`. -/
structure DevServerConfig where
  port : Nat
  inline : Bool
  «open» : Bool
  «public» : Option String
  publicPath : Option String
  hot : Option Bool
deriving DecidableEq

/-- The `output` section of a produced configuration. -/
structure WebpackOutput where
  path : String
  filename : String
  chunkFilename : Option String
  publicPath : String
deriving DecidableEq

/-- The produced Webpack configuration object. Fields a given producer
never sets are `none`. -/
structure WebpackConfig where
  entry : EntryMap
  output : WebpackOutput
  devtool : Option String
  plugins : List WebpackPlugin
  devServer : Option DevServerConfig
  target : Option String
  nodeDirname : Option Bool
  externals : Option ExternalsCall
  watch : Option Bool
  mode : Option String
deriving DecidableEq

/-! ## The event-reducer pipeline -/

/-- `events.reduce(names, value, params)` with a list of names: a strict
left-to-right fold, the output of reducing through identifier `i` being
the input to identifier `i+1`. The handlers registered under one
identifier (together with the fixed `params` context) are abstracted as a
function `red : String → α → α`. -/
def eventsReduce {α : Type} (red : String → α → α) (names : List String) (value : α) : α :=
  names.foldl (fun current name => red name current) value

/-- The reducer corresponding to no registered handler: every value
passes through unchanged (Event Reducer contract). -/
def idRed {α : Type} : String → α → α := fun _ value => value

/-! ## JS helpers used by the sources -/

/-- `Array.prototype.indexOf`: first index of `x`, `-1` when absent. -/
def jsIndexOf : List String → String → Int
  | [], _ => -1
  | a :: rest, x =>
    if a = x then 0
    else
      let r := jsIndexOf rest x
      if r = -1 then -1 else r + 1

/-- `list.splice(i, 0, ...xs)`: insert `xs` at position `i`. -/
def spliceInsert (l : List String) (i : Nat) (xs : List String) : List String :=
  l.take i ++ xs ++ l.drop i

/-- JS `v || d` defaulting for an optional number (`0` is falsy). -/
def jsOrNat (v : Option Nat) (d : Nat) : Nat :=
  match v with
  | none => d
  | some p => if p = 0 then d else p

/-- JS `v || d` defaulting for an optional string (`''` is falsy). -/
def jsOrStr (v : Option String) (d : String) : String :=
  match v with
  | none => d
  | some s => if s = "" then d else s

/-! ## Browser development producer
(`src/services/configurations/browserDevelopmentConfiguration.js`) -/

namespace WebpackBrowserDevelopmentConfiguration

/-- Lines 158-167: find `'babel-polyfill'`; when present, splice the hot
entries right after it, otherwise unshift them on top. -/
def injectHotEntries (hotEntries entries : List String) : List String :=
  let polyfillIndex := jsIndexOf entries "babel-polyfill"
  if polyfillIndex > -1 then
    spliceInsert entries (polyfillIndex + 1).toNat hotEntries
  else
    hotEntries ++ entries

/-- Lines 152-168: when there are hot entries, mutate the module list of
the first entry key.  With an empty entry mapping the source would read
`config.entry[undefined]` and throw a `TypeError` on `.indexOf`, so that
case is `none`. -/
def injectEntries (hotEntries : List String) (entry : EntryMap) : Option EntryMap :=
  if hotEntries.length ≠ 0 then
    match entry with
    | [] => none
    | (entryName, entries) :: rest =>
      some ((entryName, injectHotEntries hotEntries entries) :: rest)
  else
    some entry

/-- Line 134: `const protocol = devServer.https ? 'https' : 'http';` -/
def urlScheme (https : Bool) : String := if https then "https" else "http"

/-- Line 135: the dev-server host URL used by the hot entries. -/
def devServerHostUrl (t : Target) : String :=
  urlScheme t.devServer.https ++ "://" ++ jsOrStr t.devServer.host "localhost"
    ++ ":" ++ toString (jsOrNat t.devServer.port 2509)

/-- Lines 111-151: the list of extra HMR entries, depending on
`runOnDevelopment` (integrated dev server) and `hot`. -/
def hotEntriesFor (t : Target) : List String :=
  if t.runOnDevelopment then
    if t.hot then
      ["webpack-dev-server/client?" ++ devServerHostUrl t,
       "webpack/hot/only-dev-server"]
    else []
  else if t.hot then
    ["webpack-hot-middleware/client?reload=true"]
  else []

/-- Lines 113-141: the `devServer` section (only built when
`target.runOnDevelopment` is set). -/
def devServerSection (t : Target) : DevServerConfig :=
  let devServerHost := jsOrStr t.devServer.host "localhost"
  let base : DevServerConfig :=
    { port := jsOrNat t.devServer.port 2509
      inline := t.devServer.reload
      «open» := true
      «public» := if devServerHost ≠ "localhost" then some devServerHost else none
      publicPath := none
      hot := none }
  if t.hot then
    { base with inline := false, publicPath := some "/", hot := some true }
  else base

/-- Lines 89-109 plus line 143: the plugin list. -/
def pluginsList (ps : ConfigurationParams) : List WebpackPlugin :=
  [WebpackPlugin.extractText ps.output.css,
   WebpackPlugin.htmlWebpack (ps.target.paths.source ++ "/" ++ ps.target.html.template) "body",
   WebpackPlugin.scriptExtHtml "async"]
  ++ (if ps.target.hot then [WebpackPlugin.namedModules, WebpackPlugin.hotModuleReplacement] else [])
  ++ [WebpackPlugin.noEmitOnErrors,
      WebpackPlugin.define ps.definitions,
      WebpackPlugin.optimizeCssAssets]
  ++ (if ps.target.runOnDevelopment
      then [WebpackPlugin.devServerLogger (jsOrNat ps.target.devServer.port 2509)]
      else [])

/-- Lines 67-168: the configuration assembled before the final reduction.
The `entry` put in the config is a deep copy of `params.entry`
(`extend(true, \x7b\x7d, entry)`, line 76) which the hot-entry step then
mutates; the aliasing discipline itself is modelled separately by
`EntryStoreModel`. -/
def assembledConfig (ps : ConfigurationParams) : Option WebpackConfig :=
  (injectEntries (hotEntriesFor ps.target) ps.entry).map fun newEntry =>
    { entry := newEntry
      output :=
        { path := "./" ++ ps.target.folders.build
          filename := ps.output.js
          chunkFilename := none
          publicPath := "/" }
      devtool := if ps.target.sourceMap.development then some "source-map" else none
      plugins := pluginsList ps
      devServer := if ps.target.runOnDevelopment then some (devServerSection ps.target) else none
      target := none
      nodeDirname := none
      externals := none
      watch := none
      mode := none }

/-- Lines 170-175: the final reduction goes through the single event
`webpack-browser-development-configuration`. -/
def eventNames : List String := ["webpack-browser-development-configuration"]

/-- Lines 67-176: `createConfig(params)`. -/
def createConfig (red : String → WebpackConfig → WebpackConfig)
    (ps : ConfigurationParams) : Option WebpackConfig :=
  (assembledConfig ps).map (eventsReduce red eventNames)

end WebpackBrowserDevelopmentConfiguration

/-! ## Browser production producer
(`src/services/configurations/browserProductionConfiguration.js`) -/

namespace WebpackBrowserProductionConfiguration

/-- Lines 61-111: the configuration assembled before the final
reduction.  `htmlFilepath` stands for the result of the external
`targetsHTML.getFilepath(target)` service call (line 92). -/
def assembledConfig (htmlFilepath : String) (ps : ConfigurationParams) : WebpackConfig :=
  { entry := ps.entry
    output :=
      { path := "./" ++ ps.target.folders.build
        filename := ps.output.js
        chunkFilename := none
        publicPath := "/" }
    devtool := if ps.target.sourceMap.production then some "source-map" else none
    plugins :=
      [WebpackPlugin.extractText ps.output.css]
      ++ (if ps.target.library then []
          else [WebpackPlugin.htmlWebpack htmlFilepath "body",
                WebpackPlugin.scriptExtHtml "async"])
      ++ [WebpackPlugin.define ps.definitions,
          WebpackPlugin.uglifyJS ps.target.sourceMap.production,
          WebpackPlugin.optimizeCssAssets]
      ++ (if !ps.target.library || ps.target.libraryOptions.compress
          then [WebpackPlugin.compression] else [])
    devServer := none
    target := none
    nodeDirname := none
    externals := none
    watch := none
    mode := none }

/-- Lines 112-121: the final two-tier reduction. -/
def eventNames : List String :=
  ["webpack-browser-production-configuration", "webpack-browser-configuration"]

/-- Lines 61-121: `createConfig(params)`. -/
def createConfig (red : String → WebpackConfig → WebpackConfig)
    (htmlFilepath : String) (ps : ConfigurationParams) : WebpackConfig :=
  eventsReduce red eventNames (assembledConfig htmlFilepath ps)

end WebpackBrowserProductionConfiguration

/-! ## Node development producer
(`src/unnamed/part_001`, lines 514-617) -/

namespace WebpackNodeDevelopmentConfiguration

/-- Lines 564-607: the configuration assembled before the final
reduction.  `webpackDefaultExternals` is the list injected through the
constructor (lines 528-551). -/
def assembledConfig (webpackDefaultExternals : List String)
    (ps : ConfigurationParams) : WebpackConfig :=
  { entry := ps.entry
    output :=
      { path := "./" ++ ps.target.folders.build
        filename := ps.output.js
        chunkFilename := none
        publicPath := "/" }
    devtool := none
    plugins :=
      [WebpackPlugin.noEmitOnErrors, WebpackPlugin.optimizeCssAssets]
      ++ (if ps.target.runOnDevelopment then [WebpackPlugin.webpackNodeUtilsRunner] else [])
    devServer := none
    target := some "node"
    nodeDirname := some false
    externals := some
      { devDependencies := true
        modules := webpackDefaultExternals ++ ps.target.excludeModules }
    watch := some ps.target.runOnDevelopment
    mode := none }

/-- Lines 608-616: the final two-tier reduction. -/
def eventNames : List String :=
  ["webpack-node-development-configuration", "webpack-node-configuration"]

/-- Lines 564-617: `createConfig(params)`. -/
def createConfig (red : String → WebpackConfig → WebpackConfig)
    (webpackDefaultExternals : List String) (ps : ConfigurationParams) : WebpackConfig :=
  eventsReduce red eventNames (assembledConfig webpackDefaultExternals ps)

end WebpackNodeDevelopmentConfiguration

/-! ## Node production producer
(`src/unnamed/part_001`, lines 784-878) -/

namespace WebpackNodeProductionConfiguration

/-- Lines 826-868: the configuration assembled before the final
reduction.  Note: this producer sets no `externals` field at all and
never invokes `webpackNodeUtils.externals`. -/
def assembledConfig (ps : ConfigurationParams) : WebpackConfig :=
  { entry := ps.entry
    output :=
      { path := "./" ++ ps.target.folders.build
        filename := ps.output.js
        chunkFilename := some ps.output.jsChunks
        publicPath := "/" }
    devtool := if ps.target.sourceMap.production then some "source-map" else none
    plugins :=
      [WebpackPlugin.noEmitOnErrors,
       WebpackPlugin.optimizeCssAssets,
       WebpackPlugin.copyWebpack ps.copy]
      ++ (if ps.additionalWatch.length ≠ 0
          then [WebpackPlugin.extraWatch ps.additionalWatch] else [])
    devServer := none
    target := some "node"
    nodeDirname := some false
    externals := none
    watch := some ps.target.watch.production
    mode := some "production" }

/-- Lines 869-877: the final two-tier reduction. -/
def eventNames : List String :=
  ["webpack-node-production-configuration", "webpack-node-configuration"]

/-- Lines 826-878: `createConfig(params)`. -/
def createConfig (red : String → WebpackConfig → WebpackConfig)
    (ps : ConfigurationParams) : WebpackConfig :=
  eventsReduce red eventNames (assembledConfig ps)

end WebpackNodeProductionConfiguration

/-! ## Rules producer (`src/unnamed/part_001`, lines 1-502) -/

namespace WebpackRulesConfiguration

/-- The `query` object built for the CSS loader on SCSS rules
(lines 117-127). -/
structure CssLoaderQuery where
  importRules : Nat
  modules : Bool
  localIdentName : Option String
deriving DecidableEq

/-- Loader options, by the shape the source passes them in. -/
inductive LoaderOpts where
  | noOpts
  | babel (options : String)
  | cssQuery (q : CssLoaderQuery)
  | sassOptions (sourceMap : Bool) (outputStyle : String) (includePaths : List String)
  | fileOpts (name : String) (mimetype : Option String) (digest : Option String)
  | imageQuery (progressive : Bool) (interlaced : Bool) (optimizationLevel : Nat)
      (quality : String) (speed : Nat)
  | faviconQuery (optimizationLevel : Nat) (quality : String) (speed : Nat)
deriving DecidableEq

/-- A single loader entry of a rule's `use` list. -/
structure Loader where
  loader : String
  opts : LoaderOpts
deriving DecidableEq

/-- A rule's `use`: either a plain loader list or the object produced by
`ExtractTextPlugin.extract(\x7b fallback, use \x7d)`. -/
inductive RuleUse where
  | loaders (ls : List Loader)
  | extracted (fallback : String) (ls : List Loader)
deriving DecidableEq

/-- One matcher/transform rule descriptor; regexes are kept by their
source pattern text. -/
structure RuleDesc where
  test : String
  «include» : List String
  exclude : List String
  use : RuleUse
deriving DecidableEq

/-- The `\x7b rules \x7d` object returned by `createConfig`. -/
structure RulesConfig where
  rules : List RuleDesc
deriving DecidableEq

/-- Lines 474-479, `_reduceConfig(events, config, params)`: a strict
left-to-right fold of `this.events.reduce` over the event-name list. -/
def reduceConfig {α : Type} (red : String → α → α) (events : List String) (config : α) : α :=
  events.foldl (fun currentConfig eventName => red eventName currentConfig) config

/-- Lines 78-91: the Javascript rule before reduction. `babelOptions`
stands for `babelConfiguration.getConfigForTarget(target)` and
`configDir` for `pathUtils.join('config')`, both external services. -/
def jsRules (babelOptions configDir : String) (ps : ConfigurationParams) : List RuleDesc :=
  [{ test := "\\.jsx?$"
     «include» :=
       [ps.target.folders.source, configDir]
       ++ ps.target.includeModules.map (fun name => "/node_modules/" ++ name)
     exclude := []
     use := RuleUse.loaders [{ loader := "babel-loader", opts := LoaderOpts.babel babelOptions }] }]

/-- Lines 76-101: `getJSRules(params)` with its two-tier reduction. -/
def getJSRules (red : String → List RuleDesc → List RuleDesc)
    (babelOptions configDir : String) (ps : ConfigurationParams) : List RuleDesc :=
  let eventName := if ps.target.is.node then
    "webpack-js-rules-configuration-for-node"
  else
    "webpack-js-rules-configuration-for-browser"
  reduceConfig red [eventName, "webpack-js-rules-configuration"] (jsRules babelOptions configDir ps)

/-- Lines 116-168: the SCSS rule (and its event name) before reduction.
The event name defaults to the node one and is switched when
`target.is.browser`. -/
def scssRulesAndEvent (ps : ConfigurationParams) : List RuleDesc × String :=
  let cssLoaderConfig : CssLoaderQuery :=
    { importRules := 2
      modules := ps.target.css.modules
      localIdentName :=
        if ps.target.css.modules then some "[name]__[local]___[hash:base64:5]" else none }
  let baseUse : List Loader :=
    [{ loader := "css-loader", opts := LoaderOpts.cssQuery cssLoaderConfig },
     { loader := "resolve-url-loader", opts := LoaderOpts.noOpts },
     { loader := "sass-loader", opts := LoaderOpts.sassOptions true "expanded" ["node_modules"] }]
  let eventName :=
    if ps.target.is.browser then "webpack-scss-rules-configuration-for-browser"
    else "webpack-scss-rules-configuration-for-node"
  let use :=
    if ps.target.is.browser then
      if ps.target.css.inject then
        RuleUse.loaders ({ loader := "style-loader", opts := LoaderOpts.noOpts } :: baseUse)
      else
        RuleUse.extracted "style-loader" baseUse
    else
      RuleUse.loaders baseUse
  ([{ test := "\\.scss$"
      «include» := ps.target.includeModules.map (fun name => "/node_modules/" ++ name)
      exclude := []
      use := use }], eventName)

/-- Lines 114-175: `getSCSSRules(params)` with its two-tier reduction. -/
def getSCSSRules (red : String → List RuleDesc → List RuleDesc)
    (ps : ConfigurationParams) : List RuleDesc :=
  reduceConfig red [(scssRulesAndEvent ps).2, "webpack-scss-rules-configuration"]
    (scssRulesAndEvent ps).1

/-- Lines 190-214: the CSS rule (and its event name) before reduction. -/
def cssRulesAndEvent (ps : ConfigurationParams) : List RuleDesc × String :=
  let baseUse : List Loader := [{ loader := "css-loader", opts := LoaderOpts.noOpts }]
  let eventName :=
    if ps.target.is.browser then "webpack-css-rules-configuration-for-browser"
    else "webpack-css-rules-configuration-for-node"
  let use :=
    if ps.target.is.browser then
      if ps.target.css.inject then
        RuleUse.loaders ({ loader := "style-loader", opts := LoaderOpts.noOpts } :: baseUse)
      else
        RuleUse.extracted "style-loader" baseUse
    else
      RuleUse.loaders baseUse
  ([{ test := "\\.css$"
      «include» := ps.target.includeModules.map (fun name => "/node_modules/" ++ name)
      exclude := []
      use := use }], eventName)

/-- Lines 188-221: `getCSSRules(params)` with its two-tier reduction. -/
def getCSSRules (red : String → List RuleDesc → List RuleDesc)
    (ps : ConfigurationParams) : List RuleDesc :=
  reduceConfig red [(cssRulesAndEvent ps).2, "webpack-css-rules-configuration"]
    (cssRulesAndEvent ps).1

/-- Lines 236-243: the HTML rule before reduction. -/
def htmlRules : List RuleDesc :=
  [{ test := "\\.html?$"
     «include» := []
     exclude := ["\\.tpl\\.html"]
     use := RuleUse.loaders [{ loader := "raw-loader", opts := LoaderOpts.noOpts }] }]

/-- Lines 235-253: `getHTMLRules(params)` with its two-tier reduction. -/
def getHTMLRules (red : String → List RuleDesc → List RuleDesc)
    (ps : ConfigurationParams) : List RuleDesc :=
  let eventName := if ps.target.is.node then
    "webpack-html-rules-configuration-for-node"
  else
    "webpack-html-rules-configuration-for-browser"
  reduceConfig red [eventName, "webpack-html-rules-configuration"] htmlRules

/-- The font-folder matcher built from a base path (lines 275, 277). -/
def fontsPathPattern (base : String) : String :=
  base ++ "/(?:.*?/)?fonts/.*?"

/-- Lines 270-332: the five font rules before reduction. -/
def fontsRules (ps : ConfigurationParams) : List RuleDesc :=
  let name := ps.output.fonts
  [{ test := "\\.svg(\\?(v=\\d+\\.\\d+\\.\\d+|\\w+))?$"
     «include» :=
       fontsPathPattern ps.target.paths.source
       :: ps.target.includeModules.map (fun modName => fontsPathPattern ("/node_modules/" ++ modName))
     exclude := []
     use := RuleUse.loaders
       [{ loader := "file-loader", opts := LoaderOpts.fileOpts name (some "image/svg+xml") none }] },
   { test := "\\.woff(\\?(v=\\d+\\.\\d+\\.\\d+|\\w+))?$"
     «include» := []
     exclude := []
     use := RuleUse.loaders
       [{ loader := "file-loader", opts := LoaderOpts.fileOpts name (some "application/font-woff") none }] },
   { test := "\\.woff2(\\?(v=\\d+\\.\\d+\\.\\d+|\\w+))?$"
     «include» := []
     exclude := []
     use := RuleUse.loaders
       [{ loader := "file-loader", opts := LoaderOpts.fileOpts name (some "application/font-woff") none }] },
   { test := "\\.ttf(\\?(v=\\d+\\.\\d+\\.\\d+|\\w+))?$"
     «include» := []
     exclude := []
     use := RuleUse.loaders
       [{ loader := "file-loader", opts := LoaderOpts.fileOpts name (some "application/octet-stream") none }] },
   { test := "\\.eot(\\?(v=\\d+\\.\\d+\\.\\d+|\\w+))?$"
     «include» := []
     exclude := []
     use := RuleUse.loaders
       [{ loader := "file-loader", opts := LoaderOpts.fileOpts name none none }] }]

/-- Lines 268-342: `getFontsRules(params)` with its two-tier reduction. -/
def getFontsRules (red : String → List RuleDesc → List RuleDesc)
    (ps : ConfigurationParams) : List RuleDesc :=
  let eventName := if ps.target.is.node then
    "webpack-fonts-rules-configuration-for-node"
  else
    "webpack-fonts-rules-configuration-for-browser"
  reduceConfig red [eventName, "webpack-fonts-rules-configuration"] (fontsRules ps)

/-- Lines 357-400: the image rule before reduction. -/
def imagesRules (ps : ConfigurationParams) : List RuleDesc :=
  let name := ps.output.images
  [{ test := "\\.(jpe?g|png|gif|svg|ico)$"
     «include» := []
     exclude :=
       "favicon\\.\\w+$"
       :: fontsPathPattern ps.target.paths.source
       :: ps.target.includeModules.map (fun modName => fontsPathPattern ("/node_modules/" ++ modName))
     use := RuleUse.loaders
       [{ loader := "file-loader", opts := LoaderOpts.fileOpts name none (some "hex") },
        { loader := "image-webpack-loader", opts := LoaderOpts.imageQuery true false 7 "75-90" 3 }] }]

/-- Lines 355-410: `getImagesRules(params)` with its two-tier reduction. -/
def getImagesRules (red : String → List RuleDesc → List RuleDesc)
    (ps : ConfigurationParams) : List RuleDesc :=
  let eventName := if ps.target.is.node then
    "webpack-images-rules-configuration-for-node"
  else
    "webpack-images-rules-configuration-for-browser"
  reduceConfig red [eventName, "webpack-images-rules-configuration"] (imagesRules ps)

/-- Lines 427-452: the favicons rule before reduction. -/
def faviconsRules : List RuleDesc :=
  [{ test := "\\.(png|ico)$"
     «include» := ["favicon\\.\\w+$"]
     exclude := []
     use := RuleUse.loaders
       [{ loader := "file-loader", opts := LoaderOpts.fileOpts "[name].[ext]" none (some "hex") },
        { loader := "image-webpack-loader", opts := LoaderOpts.faviconQuery 7 "75-90" 3 }] }]

/-- Lines 426-462: `getFaviconsRules(params)` with its two-tier reduction. -/
def getFaviconsRules (red : String → List RuleDesc → List RuleDesc)
    (ps : ConfigurationParams) : List RuleDesc :=
  let eventName := if ps.target.is.node then
    "webpack-favicons-rules-configuration-for-node"
  else
    "webpack-favicons-rules-configuration-for-browser"
  reduceConfig red [eventName, "webpack-favicons-rules-configuration"] faviconsRules

/-- Lines 44-63: `createConfig(params)` — concatenate the seven category
lists in their fixed order, then reduce the combined `\x7b rules \x7d`
object through the environment-specific and the generic identifier.
`redRules` reduces category lists, `redCfg` reduces the combined object
(both stand for the same heterogeneous `events.reduce`). -/
def createConfig (redRules : String → List RuleDesc → List RuleDesc)
    (redCfg : String → RulesConfig → RulesConfig)
    (babelOptions configDir : String) (ps : ConfigurationParams) : RulesConfig :=
  let rules :=
    getJSRules redRules babelOptions configDir ps
    ++ getSCSSRules redRules ps
    ++ getCSSRules redRules ps
    ++ getHTMLRules redRules ps
    ++ getFontsRules redRules ps
    ++ getImagesRules redRules ps
    ++ getFaviconsRules redRules ps
  let eventName := if ps.target.is.node then
    "webpack-rules-configuration-for-node"
  else
    "webpack-rules-configuration-for-browser"
  reduceConfig redCfg [eventName, "webpack-rules-configuration"] { rules := rules }

end WebpackRulesConfiguration

/-! ## Entry-store model for the deep-copy discipline

The browser development producer is the only one that mutates an entry
object, and it does so on a deep copy (`extend(true, \x7b\x7d, entry)`,
line 76).  To reason about aliasing we model entry objects in an explicit
store: references are indices, `extend` allocates a fresh cell holding a
copy, and the hot-entry splice writes through the config's reference
only. -/

namespace EntryStoreModel

/-- A store of entry objects; a reference is an index into it. -/
abbrev EntryStore := List EntryMap

/-- Dereference (missing references read as the empty object). -/
def storeRead (s : EntryStore) (r : Nat) : EntryMap := (s.get? r).getD []

/-- In-place update of the object behind a reference. -/
def storeWrite (s : EntryStore) (r : Nat) (v : EntryMap) : EntryStore := s.set r v

/-- Line 76, `extend(true, \x7b\x7d, entry)`: allocate a fresh object
holding a structural copy of the object behind `entryRef`, and return its
reference. -/
def allocCopy (s : EntryStore) (entryRef : Nat) : EntryStore × Nat :=
  (s ++ [storeRead s entryRef], s.length)

/-- Lines 152-168: when there are hot entries, mutate (in place) the
module list of the first key of the object behind `configRef`. -/
def mutateHotEntries (s : EntryStore) (configRef : Nat) (hotEntries : List String) : EntryStore :=
  if hotEntries.length ≠ 0 then
    match storeRead s configRef with
    | [] => s
    | (entryName, entries) :: rest =>
      storeWrite s configRef
        ((entryName, WebpackBrowserDevelopmentConfiguration.injectHotEntries hotEntries entries) :: rest)
  else s

/-- The complete entry handling of `createConfig`: deep-copy the caller's
entry object, then splice the hot entries into the copy.  Returns the
final store and the reference placed in the returned configuration. -/
def entryStep (s : EntryStore) (entryRef : Nat) (hotEntries : List String) : EntryStore × Nat :=
  let (s1, configRef) := allocCopy s entryRef
  (mutateHotEntries s1 configRef hotEntries, configRef)

end EntryStoreModel

/-! ## Dev middleware filesystem future

Modelled from the spec: the Dev Middleware Generator source file
(`src/services/server/middlewares.js`) is not under `src/`; only its test
suite (`src/tests/services/server/middlewares.test.js`, lines 258-340)
is.  Following §4.6/§5 of the spec and that test: `getFileSystem()`
returns a future that is pending until the injected plugin's
compile-done hook fires for the first time; the first firing resolves it
with the dev middleware's filesystem handle and later firings never
re-resolve or replace it. -/

namespace WebpackMiddlewares

/-- Observable events of one (build-target, serve-target) pair: a
`getFileSystem()` call, or the bundler's compile-done hook firing with a
filesystem handle. -/
inductive MwEvent (FS : Type) where
  | getFileSystemCall
  | hookDone (fs : FS)

/-- Modelled from the spec: the generator's per-pair state is just the
one-shot resolution cell of the filesystem future (`none` = still
pending). -/
structure MwState (FS : Type) where
  resolved : Option FS

/-- Modelled from the spec: the initial (uncompiled) state. -/
def mwInit (FS : Type) : MwState FS := { resolved := none }

/-- Modelled from the spec: the compile-done hook resolves the future on
its first firing only; `getFileSystem()` calls never change the state. -/
def mwStep {FS : Type} (s : MwState FS) : MwEvent FS → MwState FS
  | MwEvent.hookDone f =>
    match s.resolved with
    | none => { resolved := some f }
    | some _ => s
  | MwEvent.getFileSystemCall => s

/-- Run a sequence of events. -/
def mwRun {FS : Type} (s : MwState FS) (evs : List (MwEvent FS)) : MwState FS :=
  evs.foldl mwStep s

/-- Modelled from the spec: what a `getFileSystem()` call observes —
`none` is a pending future, `some f` a future (already) resolved to `f`. -/
def getFileSystemResult {FS : Type} (s : MwState FS) : Option FS := s.resolved

end WebpackMiddlewares

/-! ## Plugin discriminators and concrete example inputs -/

/-- Is the plugin the HTML-injection plugin? -/
def isHtmlPlugin : WebpackPlugin → Bool
  | WebpackPlugin.htmlWebpack _ _ => true
  | _ => false

/-- Is the plugin the script-tag-attribute plugin? -/
def isScriptExtPlugin : WebpackPlugin → Bool
  | WebpackPlugin.scriptExtHtml _ => true
  | _ => false

/-- Is the plugin the gzip compression plugin? -/
def isCompressionPlugin : WebpackPlugin → Bool
  | WebpackPlugin.compression => true
  | _ => false

/-- A reducer with a handler registered only under the shared
cross-variant browser identifier; it marks the configuration it sees. -/
def markerRed : String → WebpackConfig → WebpackConfig :=
  fun name config =>
    if name = "webpack-browser-configuration" then { config with devtool := some "marker" }
    else config

/-- Dev-server settings with everything absent/disabled. -/
def exampleDevServer : DevServerParams :=
  { port := none, host := none, reload := false, https := false }

/-- A plain browser target. -/
def exampleTarget : Target :=
  { name := "targetName"
    folders := { source := "src/target", build := "dist/target" }
    paths := { source := "src/target" }
    html := { template := "index.html" }
    sourceMap := { development := false, production := false }
    hot := false
    runOnDevelopment := false
    devServer := exampleDevServer
    library := false
    libraryOptions := { compress := false }
    excludeModules := []
    includeModules := []
    css := { modules := false, inject := false }
    is := { node := false, browser := true }
    watch := { production := false } }

/-- Output templates used by the example params. -/
def exampleOutput : OutputTemplates :=
  { js := "statics/js/build.js"
    css := "statics/css/build.css"
    jsChunks := "statics/js/[name].js"
    fonts := "statics/fonts/[name].[ext]"
    images := "statics/images/[name].[ext]" }

/-- Plain browser-target params. -/
def exampleParams : ConfigurationParams :=
  { target := exampleTarget
    entry := [("targetName", ["index.js"])]
    output := exampleOutput
    definitions := []
    copy := []
    additionalWatch := [] }

/-- A plain node target (no exclusions). -/
def exampleNodeTarget : Target :=
  { exampleTarget with is := { node := true, browser := false } }

/-- Node-target params with no target exclusions. -/
def exampleNodeParams : ConfigurationParams :=
  { exampleParams with target := exampleNodeTarget }

/-- A hot-reload browser target running on the integrated dev server. -/
def hotDevServerTarget : Target :=
  { exampleTarget with hot := true, runOnDevelopment := true }

/-- Params for a hot-reload dev-server build whose entry starts with
`babel-polyfill`. -/
def hotDevServerParams : ConfigurationParams :=
  { exampleParams with
      target := hotDevServerTarget
      entry := [("targetName", ["babel-polyfill", "index.js"])] }

/-- A hot-reload browser target with hot reload but no dev server. -/
def hotMiddlewareTarget : Target := { exampleTarget with hot := true }

/-- Params for a hot-reload build without the dev server. -/
def hotMiddlewareParams : ConfigurationParams :=
  { exampleParams with target := hotMiddlewareTarget }

/-- A dev-server target with hot reload and `devServer.reload` set. -/
def hotReloadTarget : Target :=
  { exampleTarget with
      hot := true
      runOnDevelopment := true
      devServer := { exampleDevServer with reload := true } }

/-- Params for the dev-server target with both `hot` and `reload` set. -/
def hotReloadParams : ConfigurationParams :=
  { exampleParams with target := hotReloadTarget }

/-- A library-mode browser target that does not opt into compression. -/
def libraryTarget : Target := { exampleTarget with library := true }

/-- Params for the library-mode browser target. -/
def libraryParams : ConfigurationParams :=
  { exampleParams with target := libraryTarget }

/-- Params with two entry keys, for the frame-effect witness. -/
def twoEntryParams : ConfigurationParams :=
  { exampleParams with
      target := hotMiddlewareTarget
      entry := [("main", ["index.js"]), ("admin", ["admin.js"])] }

/-! ## Helper lemmas -/

/-- `Array.prototype.indexOf` returns `-1` exactly on absent elements. -/
theorem jsIndexOf_eq_neg_one_of_not_mem (x : String) :
    ∀ l : List String, x ∉ l → jsIndexOf l x = -1 := by
  intro l
  induction l with
  | nil => intro _; rfl
  | cons a rest ih =>
    intro h
    have hax : ¬ a = x := fun he => h (he ▸ List.mem_cons_self a rest)
    have hr : jsIndexOf rest x = -1 := ih (fun hm => h (List.mem_cons_of_mem a hm))
    simp [jsIndexOf, hax, hr]

/-- The hot-entry injection succeeds whenever the entry map is nonempty. -/
theorem injectEntries_some_of_ne_nil (hotEntries : List String) (e : EntryMap)
    (he : e ≠ []) :
    ∃ e2, WebpackBrowserDevelopmentConfiguration.injectEntries hotEntries e = some e2 := by
  unfold WebpackBrowserDevelopmentConfiguration.injectEntries
  split
  · cases e with
    | nil => exact absurd rfl he
    | cons a r => exact ⟨_, rfl⟩
  · exact ⟨_, rfl⟩

/-- Reading below the length is unaffected by appending a cell. -/
theorem storeRead_append_lt (s : EntryStoreModel.EntryStore) (x : EntryMap) (r : Nat)
    (h : r < s.length) :
    EntryStoreModel.storeRead (s ++ [x]) r = EntryStoreModel.storeRead s r := by
  unfold EntryStoreModel.storeRead
  rw [List.get?_append h]

/-- Reading a reference is unaffected by writing through another one. -/
theorem storeRead_set_ne (s : EntryStoreModel.EntryStore) (i j : Nat) (v : EntryMap)
    (h : i ≠ j) :
    EntryStoreModel.storeRead (EntryStoreModel.storeWrite s i v) j =
      EntryStoreModel.storeRead s j := by
  unfold EntryStoreModel.storeRead EntryStoreModel.storeWrite
  rw [List.get?_set_ne _ _ h]

/-- The hot-entry mutation writes only through the config's reference. -/
theorem storeRead_mutateHotEntries_ne (s : EntryStoreModel.EntryStore) (cfgRef : Nat)
    (hotEntries : List String) (j : Nat) (h : cfgRef ≠ j) :
    EntryStoreModel.storeRead (EntryStoreModel.mutateHotEntries s cfgRef hotEntries) j =
      EntryStoreModel.storeRead s j := by
  unfold EntryStoreModel.mutateHotEntries
  split
  · split
    · rfl
    · exact storeRead_set_ne _ _ _ _ h
  · rfl

/-- One step of the middleware machine never un-resolves the future. -/
theorem mwStep_preserves_resolved {FS : Type} (s : WebpackMiddlewares.MwState FS)
    (e : WebpackMiddlewares.MwEvent FS) (f : FS) (hs : s.resolved = some f) :
    (WebpackMiddlewares.mwStep s e).resolved = some f := by
  cases e with
  | getFileSystemCall => exact hs
  | hookDone g => simp [WebpackMiddlewares.mwStep, hs]

/-- A run of the middleware machine never un-resolves the future. -/
theorem mwRun_preserves_resolved {FS : Type} (evs : List (WebpackMiddlewares.MwEvent FS)) :
    ∀ (s : WebpackMiddlewares.MwState FS) (f : FS), s.resolved = some f →
      (WebpackMiddlewares.mwRun s evs).resolved = some f := by
  induction evs with
  | nil => intro s f hs; exact hs
  | cons e rest ih =>
    intro s f hs
    exact ih _ f (mwStep_preserves_resolved s e f hs)

/-! ## Claim theorems -/

/-- **C1** (amended). The browser production, node development and node
production producers each funnel their assembled configuration through a
two-tier reduction — the variant-specific identifier first, then the
shared cross-variant environment identifier (`webpack-node-configuration`
for the node variants, `webpack-browser-configuration` for browser
production) — but the browser development producer reduces only through
its variant-specific identifier
`webpack-browser-development-configuration`, never through the shared
browser identifier. -/
theorem c1_final_reduction_two_tier_amended
    (red : String → WebpackConfig → WebpackConfig) (htmlFilepath : String)
    (webpackDefaultExternals : List String) (ps : ConfigurationParams) :
    WebpackBrowserProductionConfiguration.createConfig red htmlFilepath ps =
      red "webpack-browser-configuration"
        (red "webpack-browser-production-configuration"
          (WebpackBrowserProductionConfiguration.assembledConfig htmlFilepath ps)) ∧
    WebpackNodeDevelopmentConfiguration.createConfig red webpackDefaultExternals ps =
      red "webpack-node-configuration"
        (red "webpack-node-development-configuration"
          (WebpackNodeDevelopmentConfiguration.assembledConfig webpackDefaultExternals ps)) ∧
    WebpackNodeProductionConfiguration.createConfig red ps =
      red "webpack-node-configuration"
        (red "webpack-node-production-configuration"
          (WebpackNodeProductionConfiguration.assembledConfig ps)) ∧
    WebpackBrowserDevelopmentConfiguration.createConfig red ps =
      (WebpackBrowserDevelopmentConfiguration.assembledConfig ps).map
        (fun config => red "webpack-browser-development-configuration" config) := by
  refine ⟨rfl, rfl, rfl, ?_⟩
  cases h : WebpackBrowserDevelopmentConfiguration.assembledConfig ps <;>
    simp [WebpackBrowserDevelopmentConfiguration.createConfig, h, eventsReduce,
      WebpackBrowserDevelopmentConfiguration.eventNames]

/-- **C1** counterexample: with a handler registered only under the
shared `webpack-browser-configuration` identifier, the browser
development producer does not behave as the claimed two-tier reduction
would — the handler never runs. -/
theorem c1_counterexample :
    ¬ (WebpackBrowserDevelopmentConfiguration.createConfig markerRed exampleParams =
      (WebpackBrowserDevelopmentConfiguration.assembledConfig exampleParams).map
        (fun config => markerRed "webpack-browser-configuration"
          (markerRed "webpack-browser-development-configuration" config))) := by
  decide

/-- **C2**: the claim (and the repository's own test suite for the node
production configuration, `src/unnamed/part_000`, lines 108-127) says a
node production build hands the externals policy the plugin defaults plus
the target exclusions with `devDependencies=false`; but the node
production producer under `src/` builds no `externals` field at all and
never invokes `webpackNodeUtils.externals`.  At the claim's own input
(defaults `['react']`, exclusions `[]`) the produced configuration's
externals is absent, while the node development variant does mark
dependencies (with `devDependencies=true`) as the claim describes. -/
theorem c2_node_production_externals_missing :
    (WebpackNodeProductionConfiguration.createConfig idRed exampleNodeParams).externals =
      none ∧
    (WebpackNodeDevelopmentConfiguration.createConfig idRed ["react"]
        exampleNodeParams).externals =
      some { devDependencies := true, modules := ["react"] } :=
  ⟨rfl, rfl⟩

/-- **C7**: configuration assembly is deterministic — with no handlers
registered (so every reduce returns its input) every producer maps
structurally-equal params to structurally-equal configurations. -/
theorem c7_deterministic (htmlFilepath : String) (webpackDefaultExternals : List String)
    (babelOptions configDir : String) (p1 p2 : ConfigurationParams) (h : p1 = p2) :
    WebpackBrowserDevelopmentConfiguration.createConfig idRed p1 =
      WebpackBrowserDevelopmentConfiguration.createConfig idRed p2 ∧
    WebpackBrowserProductionConfiguration.createConfig idRed htmlFilepath p1 =
      WebpackBrowserProductionConfiguration.createConfig idRed htmlFilepath p2 ∧
    WebpackNodeDevelopmentConfiguration.createConfig idRed webpackDefaultExternals p1 =
      WebpackNodeDevelopmentConfiguration.createConfig idRed webpackDefaultExternals p2 ∧
    WebpackNodeProductionConfiguration.createConfig idRed p1 =
      WebpackNodeProductionConfiguration.createConfig idRed p2 ∧
    WebpackRulesConfiguration.createConfig idRed idRed babelOptions configDir p1 =
      WebpackRulesConfiguration.createConfig idRed idRed babelOptions configDir p2 := by
  subst h
  exact ⟨rfl, rfl, rfl, rfl, rfl⟩

/-- **C7** witness: the determinism theorem applied at concrete params. -/
theorem c7_deterministic_witness :
    WebpackBrowserDevelopmentConfiguration.createConfig idRed exampleParams =
      WebpackBrowserDevelopmentConfiguration.createConfig idRed exampleParams :=
  (c7_deterministic "index.html" [] "babel-options" "config" exampleParams exampleParams
    rfl).1

/-- **C8** (spec-modelled): `getFileSystem()` observes a pending future
for as long as only calls (and no compile-done hook) have happened; after
the hook fires the first time with handle `f`, every later call — across
any further events, including later compiles — resolves to that same
`f`. -/
theorem c8_filesystem_future (FS : Type) :
    WebpackMiddlewares.getFileSystemResult (WebpackMiddlewares.mwInit FS) = none ∧
    (∀ evs : List (WebpackMiddlewares.MwEvent FS),
      (∀ e ∈ evs, e = WebpackMiddlewares.MwEvent.getFileSystemCall) →
      WebpackMiddlewares.getFileSystemResult
        (WebpackMiddlewares.mwRun (WebpackMiddlewares.mwInit FS) evs) = none) ∧
    (∀ (f : FS) (evs : List (WebpackMiddlewares.MwEvent FS)),
      WebpackMiddlewares.getFileSystemResult
        (WebpackMiddlewares.mwRun
          (WebpackMiddlewares.mwStep (WebpackMiddlewares.mwInit FS)
            (WebpackMiddlewares.MwEvent.hookDone f))
          evs) = some f) := by
  refine ⟨rfl, ?_, ?_⟩
  · intro evs hcalls
    induction evs with
    | nil => rfl
    | cons e rest ih =>
      have he := hcalls e (List.mem_cons_self e rest)
      subst he
      exact ih (fun e hm => hcalls e (List.mem_cons_of_mem _ hm))
  · intro f evs
    exact mwRun_preserves_resolved evs _ f rfl

/-- **C3**: with hot reload enabled, the browser development producer's
bootstrap specifiers are the two dev-server ones when the integrated dev
server is used and the single alternate one
(`webpack-hot-middleware/client?reload=true`) otherwise, and they are
spliced into the primary entry's module list immediately after
`babel-polyfill` when that specifier is present (at one past its first
index) and at the front of the list otherwise. -/
theorem c3_hot_entry_insertion (ps : ConfigurationParams)
    (entryName : String) (mods : List String) (rest : EntryMap)
    (hentry : ps.entry = (entryName, mods) :: rest)
    (hhot : ps.target.hot = true) :
    (ps.target.runOnDevelopment = true →
      WebpackBrowserDevelopmentConfiguration.hotEntriesFor ps.target =
        ["webpack-dev-server/client?"
            ++ WebpackBrowserDevelopmentConfiguration.devServerHostUrl ps.target,
         "webpack/hot/only-dev-server"]) ∧
    (ps.target.runOnDevelopment = false →
      WebpackBrowserDevelopmentConfiguration.hotEntriesFor ps.target =
        ["webpack-hot-middleware/client?reload=true"]) ∧
    ("babel-polyfill" ∉ mods →
      ∃ config, WebpackBrowserDevelopmentConfiguration.assembledConfig ps = some config ∧
        config.entry =
          (entryName,
            WebpackBrowserDevelopmentConfiguration.hotEntriesFor ps.target ++ mods)
            :: rest) ∧
    (∀ n : Nat, jsIndexOf mods "babel-polyfill" = (n : Int) →
      ∃ config, WebpackBrowserDevelopmentConfiguration.assembledConfig ps = some config ∧
        config.entry =
          (entryName,
            mods.take (n + 1)
              ++ WebpackBrowserDevelopmentConfiguration.hotEntriesFor ps.target
              ++ mods.drop (n + 1))
            :: rest) := by
  have hne : WebpackBrowserDevelopmentConfiguration.hotEntriesFor ps.target ≠ [] := by
    unfold WebpackBrowserDevelopmentConfiguration.hotEntriesFor
    cases hrd : ps.target.runOnDevelopment <;> simp [hhot, hrd]
  have hlen : (WebpackBrowserDevelopmentConfiguration.hotEntriesFor ps.target).length ≠ 0 := by
    simpa [List.length_eq_zero] using hne
  have hinj :
      WebpackBrowserDevelopmentConfiguration.injectEntries
          (WebpackBrowserDevelopmentConfiguration.hotEntriesFor ps.target) ps.entry =
        some ((entryName,
          WebpackBrowserDevelopmentConfiguration.injectHotEntries
            (WebpackBrowserDevelopmentConfiguration.hotEntriesFor ps.target) mods) :: rest) := by
    rw [hentry]
    simp [WebpackBrowserDevelopmentConfiguration.injectEntries, hlen]
  have hassem :
      ∃ config, WebpackBrowserDevelopmentConfiguration.assembledConfig ps = some config ∧
        config.entry =
          (entryName,
            WebpackBrowserDevelopmentConfiguration.injectHotEntries
              (WebpackBrowserDevelopmentConfiguration.hotEntriesFor ps.target) mods) :: rest := by
    unfold WebpackBrowserDevelopmentConfiguration.assembledConfig
    rw [hinj]
    exact ⟨_, rfl, rfl⟩
  refine ⟨?_, ?_, ?_, ?_⟩
  · intro hrd
    simp [WebpackBrowserDevelopmentConfiguration.hotEntriesFor, hrd, hhot]
  · intro hrd
    simp [WebpackBrowserDevelopmentConfiguration.hotEntriesFor, hrd, hhot]
  · intro hmem
    obtain ⟨config, hc, he⟩ := hassem
    refine ⟨config, hc, ?_⟩
    rw [he]
    have h1 := jsIndexOf_eq_neg_one_of_not_mem "babel-polyfill" mods hmem
    simp [WebpackBrowserDevelopmentConfiguration.injectHotEntries, h1]
  · intro n hn
    obtain ⟨config, hc, he⟩ := hassem
    refine ⟨config, hc, ?_⟩
    rw [he]
    have hgt : ((n : Int) > -1) := by omega
    have htn : ((n : Int) + 1).toNat = n + 1 := by omega
    simp [WebpackBrowserDevelopmentConfiguration.injectHotEntries, hn, hgt, htn,
      spliceInsert]

/-- **C3** witness: the insertion theorem at the claim's example — entry
list `['babel-polyfill', 'index.js']`, hot reload with the dev server —
puts the bootstrap specifiers at index 1, right after `babel-polyfill`. -/
theorem c3_hot_entry_insertion_witness :
    ∃ config,
      WebpackBrowserDevelopmentConfiguration.assembledConfig hotDevServerParams =
        some config ∧
      config.entry =
        ("targetName",
          (["babel-polyfill", "index.js"] : List String).take (0 + 1)
            ++ WebpackBrowserDevelopmentConfiguration.hotEntriesFor hotDevServerParams.target
            ++ (["babel-polyfill", "index.js"] : List String).drop (0 + 1))
          :: [] :=
  (c3_hot_entry_insertion hotDevServerParams "targetName" ["babel-polyfill", "index.js"] []
    rfl rfl).2.2.2 0 (by decide)

/-- **C4**: the browser development producer deep-copies the caller's
entry object before splicing hot entries into it: after the entry step
the object behind the caller's reference reads back unchanged, the
reference placed in the returned configuration is a different one, and
writing anything through the returned reference afterwards still leaves
the caller's object unchanged. -/
theorem c4_entry_deep_copy (s : EntryStoreModel.EntryStore) (entryRef : Nat)
    (hotEntries : List String) (h : entryRef < s.length) :
    EntryStoreModel.storeRead (EntryStoreModel.entryStep s entryRef hotEntries).1 entryRef =
      EntryStoreModel.storeRead s entryRef ∧
    (EntryStoreModel.entryStep s entryRef hotEntries).2 ≠ entryRef ∧
    ∀ v : EntryMap,
      EntryStoreModel.storeRead
        (EntryStoreModel.storeWrite (EntryStoreModel.entryStep s entryRef hotEntries).1
          (EntryStoreModel.entryStep s entryRef hotEntries).2 v) entryRef =
      EntryStoreModel.storeRead s entryRef := by
  have hlen : s.length ≠ entryRef := (Nat.ne_of_lt h).symm
  have hstep1 :
      (EntryStoreModel.entryStep s entryRef hotEntries).1 =
        EntryStoreModel.mutateHotEntries
          (s ++ [EntryStoreModel.storeRead s entryRef]) s.length hotEntries := rfl
  have hstep2 : (EntryStoreModel.entryStep s entryRef hotEntries).2 = s.length := rfl
  have hread1 :
      EntryStoreModel.storeRead (EntryStoreModel.entryStep s entryRef hotEntries).1 entryRef =
        EntryStoreModel.storeRead s entryRef := by
    rw [hstep1, storeRead_mutateHotEntries_ne _ _ _ _ hlen]
    exact storeRead_append_lt s _ entryRef h
  refine ⟨hread1, ?_, ?_⟩
  · rw [hstep2]; exact hlen
  · intro v
    rw [hstep2, storeRead_set_ne _ _ _ _ hlen]
    exact hread1

/-- **C4** witness: the deep-copy theorem applied to a one-object store
holding the entry mapping of a hot build. -/
theorem c4_entry_deep_copy_witness :
    EntryStoreModel.storeRead
        (EntryStoreModel.entryStep [[("targetName", ["index.js"])]] 0
          ["webpack-hot-middleware/client?reload=true"]).1 0 =
      EntryStoreModel.storeRead [[("targetName", ["index.js"])]] 0 ∧
    EntryStoreModel.storeRead
        (EntryStoreModel.storeWrite
          (EntryStoreModel.entryStep [[("targetName", ["index.js"])]] 0
            ["webpack-hot-middleware/client?reload=true"]).1
          (EntryStoreModel.entryStep [[("targetName", ["index.js"])]] 0
            ["webpack-hot-middleware/client?reload=true"]).2 []) 0 =
      EntryStoreModel.storeRead [[("targetName", ["index.js"])]] 0 :=
  ⟨(c4_entry_deep_copy [[("targetName", ["index.js"])]] 0
      ["webpack-hot-middleware/client?reload=true"] (by decide)).1,
   (c4_entry_deep_copy [[("targetName", ["index.js"])]] 0
      ["webpack-hot-middleware/client?reload=true"] (by decide)).2.2 []⟩

/-- **C5**: in the browser production configuration, the gzip compression
plugin is present exactly when the target is not a library or the library
opts in through `libraryOptions.compress`; a library target gets neither
the HTML-injection plugin nor the script-tag-attribute plugin, while a
non-library target gets both. -/
theorem c5_library_plugins (htmlFilepath : String) (ps : ConfigurationParams) :
    ((WebpackBrowserProductionConfiguration.createConfig idRed htmlFilepath ps).plugins.any
        isCompressionPlugin =
      (!ps.target.library || ps.target.libraryOptions.compress)) ∧
    (ps.target.library = true →
      (WebpackBrowserProductionConfiguration.createConfig idRed htmlFilepath ps).plugins.any
          isHtmlPlugin = false ∧
      (WebpackBrowserProductionConfiguration.createConfig idRed htmlFilepath ps).plugins.any
          isScriptExtPlugin = false) ∧
    (ps.target.library = false →
      (WebpackBrowserProductionConfiguration.createConfig idRed htmlFilepath ps).plugins.any
          isHtmlPlugin = true ∧
      (WebpackBrowserProductionConfiguration.createConfig idRed htmlFilepath ps).plugins.any
          isScriptExtPlugin = true) := by
  cases hl : ps.target.library <;> cases hc : ps.target.libraryOptions.compress <;>
    simp [WebpackBrowserProductionConfiguration.createConfig,
      WebpackBrowserProductionConfiguration.eventNames,
      WebpackBrowserProductionConfiguration.assembledConfig, eventsReduce, idRed,
      isCompressionPlugin, isHtmlPlugin, isScriptExtPlugin, hl, hc]

/-- **C5** witness: at a library target that does not opt into
compression, the plugin list has no HTML plugin, no script-tag plugin and
no compression plugin. -/
theorem c5_library_plugins_witness :
    (WebpackBrowserProductionConfiguration.createConfig idRed "index.html"
        libraryParams).plugins.any isHtmlPlugin = false ∧
    (WebpackBrowserProductionConfiguration.createConfig idRed "index.html"
        libraryParams).plugins.any isCompressionPlugin =
      (!libraryParams.target.library || libraryParams.target.libraryOptions.compress) :=
  ⟨((c5_library_plugins "index.html" libraryParams).2.1 rfl).1,
   (c5_library_plugins "index.html" libraryParams).1⟩

/-- The two-name `_reduceConfig` fold: specific first, generic second. -/
theorem reduceConfig_pair {α : Type} (red : String → α → α) (n1 n2 : String) (config : α) :
    WebpackRulesConfiguration.reduceConfig red [n1, n2] config = red n2 (red n1 config) := rfl

/-- **C6**: for a well-formed target (`is.browser = !is.node`) the rules
producer concatenates the seven category lists in the fixed order
scripts, SCSS, CSS, markup, fonts, images, favicons; every category list
and the combined rules object go through exactly two reductions — the
environment-specific identifier chosen by `target.is.node`, then the
generic one — and the two-name `_reduceConfig` fold is the strict
left-to-right composition. -/
theorem c6_rules_order_and_two_tier
    (redRules : String → List WebpackRulesConfiguration.RuleDesc →
      List WebpackRulesConfiguration.RuleDesc)
    (redCfg : String → WebpackRulesConfiguration.RulesConfig →
      WebpackRulesConfiguration.RulesConfig)
    (babelOptions configDir : String) (ps : ConfigurationParams)
    (h : ps.target.is.browser = !ps.target.is.node) :
    WebpackRulesConfiguration.createConfig redRules redCfg babelOptions configDir ps =
      redCfg "webpack-rules-configuration"
        (redCfg
          (if ps.target.is.node then "webpack-rules-configuration-for-node"
            else "webpack-rules-configuration-for-browser")
          { rules :=
              WebpackRulesConfiguration.getJSRules redRules babelOptions configDir ps
              ++ WebpackRulesConfiguration.getSCSSRules redRules ps
              ++ WebpackRulesConfiguration.getCSSRules redRules ps
              ++ WebpackRulesConfiguration.getHTMLRules redRules ps
              ++ WebpackRulesConfiguration.getFontsRules redRules ps
              ++ WebpackRulesConfiguration.getImagesRules redRules ps
              ++ WebpackRulesConfiguration.getFaviconsRules redRules ps }) ∧
    WebpackRulesConfiguration.getJSRules redRules babelOptions configDir ps =
      redRules "webpack-js-rules-configuration"
        (redRules
          (if ps.target.is.node then "webpack-js-rules-configuration-for-node"
            else "webpack-js-rules-configuration-for-browser")
          (WebpackRulesConfiguration.jsRules babelOptions configDir ps)) ∧
    WebpackRulesConfiguration.getSCSSRules redRules ps =
      redRules "webpack-scss-rules-configuration"
        (redRules
          (if ps.target.is.node then "webpack-scss-rules-configuration-for-node"
            else "webpack-scss-rules-configuration-for-browser")
          (WebpackRulesConfiguration.scssRulesAndEvent ps).1) ∧
    WebpackRulesConfiguration.getCSSRules redRules ps =
      redRules "webpack-css-rules-configuration"
        (redRules
          (if ps.target.is.node then "webpack-css-rules-configuration-for-node"
            else "webpack-css-rules-configuration-for-browser")
          (WebpackRulesConfiguration.cssRulesAndEvent ps).1) ∧
    WebpackRulesConfiguration.getHTMLRules redRules ps =
      redRules "webpack-html-rules-configuration"
        (redRules
          (if ps.target.is.node then "webpack-html-rules-configuration-for-node"
            else "webpack-html-rules-configuration-for-browser")
          WebpackRulesConfiguration.htmlRules) ∧
    WebpackRulesConfiguration.getFontsRules redRules ps =
      redRules "webpack-fonts-rules-configuration"
        (redRules
          (if ps.target.is.node then "webpack-fonts-rules-configuration-for-node"
            else "webpack-fonts-rules-configuration-for-browser")
          (WebpackRulesConfiguration.fontsRules ps)) ∧
    WebpackRulesConfiguration.getImagesRules redRules ps =
      redRules "webpack-images-rules-configuration"
        (redRules
          (if ps.target.is.node then "webpack-images-rules-configuration-for-node"
            else "webpack-images-rules-configuration-for-browser")
          (WebpackRulesConfiguration.imagesRules ps)) ∧
    WebpackRulesConfiguration.getFaviconsRules redRules ps =
      redRules "webpack-favicons-rules-configuration"
        (redRules
          (if ps.target.is.node then "webpack-favicons-rules-configuration-for-node"
            else "webpack-favicons-rules-configuration-for-browser")
          WebpackRulesConfiguration.faviconsRules) ∧
    (∀ (α : Type) (red : String → α → α) (n1 n2 : String) (config : α),
      WebpackRulesConfiguration.reduceConfig red [n1, n2] config = red n2 (red n1 config)) := by
  have hscss :
      (WebpackRulesConfiguration.scssRulesAndEvent ps).2 =
        if ps.target.is.node then "webpack-scss-rules-configuration-for-node"
        else "webpack-scss-rules-configuration-for-browser" := by
    cases hn : ps.target.is.node <;> rw [hn] at h <;>
      simp [WebpackRulesConfiguration.scssRulesAndEvent, hn, h]
  have hcss :
      (WebpackRulesConfiguration.cssRulesAndEvent ps).2 =
        if ps.target.is.node then "webpack-css-rules-configuration-for-node"
        else "webpack-css-rules-configuration-for-browser" := by
    cases hn : ps.target.is.node <;> rw [hn] at h <;>
      simp [WebpackRulesConfiguration.cssRulesAndEvent, hn, h]
  refine ⟨rfl, rfl, ?_, ?_, rfl, rfl, rfl, rfl, fun _ _ _ _ _ => rfl⟩
  · simp only [WebpackRulesConfiguration.getSCSSRules, reduceConfig_pair, hscss]
  · simp only [WebpackRulesConfiguration.getCSSRules, reduceConfig_pair, hcss]

/-- **C6** witness: the rules theorem at a concrete well-formed browser
target; its fold conjunct instantiated gives the two-step composition. -/
theorem c6_rules_order_and_two_tier_witness :
    WebpackRulesConfiguration.reduceConfig idRed
        ["webpack-js-rules-configuration-for-browser", "webpack-js-rules-configuration"]
        ([] : List WebpackRulesConfiguration.RuleDesc) =
      idRed "webpack-js-rules-configuration"
        (idRed "webpack-js-rules-configuration-for-browser"
          ([] : List WebpackRulesConfiguration.RuleDesc)) :=
  (c6_rules_order_and_two_tier idRed idRed "babel-options" "config" exampleParams
      rfl).2.2.2.2.2.2.2.2
    (List WebpackRulesConfiguration.RuleDesc) idRed
    "webpack-js-rules-configuration-for-browser" "webpack-js-rules-configuration" []

/-- **C9** (amended). For a browser development build running on the dev
server: the port defaults to 2509 when absent, the `public` field is
present (holding the defaulted host) exactly when that host differs from
`localhost`, and the hot bootstrap client URL's scheme is chosen by
`devServer.https`; `inline` is the boolean coercion of `devServer.reload`
only when hot reload is off — with hot reload on, the producer forces
`inline` to `false`. -/
theorem c9_dev_server_section_amended (ps : ConfigurationParams)
    (h : ps.target.runOnDevelopment = true) (hne : ps.entry ≠ []) :
    ∃ config ds,
      WebpackBrowserDevelopmentConfiguration.assembledConfig ps = some config ∧
      config.devServer = some ds ∧
      (ps.target.devServer.port = none → ds.port = 2509) ∧
      (ps.target.devServer.host = none → ds.«public» = none) ∧
      (jsOrStr ps.target.devServer.host "localhost" = "localhost" → ds.«public» = none) ∧
      (jsOrStr ps.target.devServer.host "localhost" ≠ "localhost" →
        ds.«public» = some (jsOrStr ps.target.devServer.host "localhost")) ∧
      (ps.target.hot = false → ds.inline = ps.target.devServer.reload) ∧
      (ps.target.hot = true → ds.inline = false) ∧
      (ps.target.hot = true →
        ∃ restUrl,
          (WebpackBrowserDevelopmentConfiguration.hotEntriesFor ps.target).headD "" =
            "webpack-dev-server/client?"
              ++ WebpackBrowserDevelopmentConfiguration.urlScheme ps.target.devServer.https
              ++ "://" ++ restUrl) := by
  obtain ⟨e2, he2⟩ := injectEntries_some_of_ne_nil
    (WebpackBrowserDevelopmentConfiguration.hotEntriesFor ps.target) ps.entry hne
  have hassem :
      ∃ config, WebpackBrowserDevelopmentConfiguration.assembledConfig ps = some config ∧
        config.devServer =
          some (WebpackBrowserDevelopmentConfiguration.devServerSection ps.target) := by
    unfold WebpackBrowserDevelopmentConfiguration.assembledConfig
    rw [he2]
    exact ⟨_, rfl, by simp [h]⟩
  obtain ⟨config, hc, hds⟩ := hassem
  refine ⟨config, WebpackBrowserDevelopmentConfiguration.devServerSection ps.target, hc, hds,
    ?_, ?_, ?_, ?_, ?_, ?_, ?_⟩
  · intro hp
    cases hhot : ps.target.hot <;>
      simp [WebpackBrowserDevelopmentConfiguration.devServerSection, jsOrNat, hp, hhot]
  · intro hp
    cases hhot : ps.target.hot <;>
      simp [WebpackBrowserDevelopmentConfiguration.devServerSection, jsOrStr, hp, hhot]
  · intro hloc
    cases hhot : ps.target.hot <;>
      simp [WebpackBrowserDevelopmentConfiguration.devServerSection, hloc, hhot]
  · intro hloc
    cases hhot : ps.target.hot <;>
      simp [WebpackBrowserDevelopmentConfiguration.devServerSection, hloc, hhot]
  · intro hhot
    simp [WebpackBrowserDevelopmentConfiguration.devServerSection, hhot]
  · intro hhot
    simp [WebpackBrowserDevelopmentConfiguration.devServerSection, hhot]
  · intro hhot
    refine ⟨jsOrStr ps.target.devServer.host "localhost" ++ ":"
      ++ toString (jsOrNat ps.target.devServer.port 2509), ?_⟩
    simp [WebpackBrowserDevelopmentConfiguration.hotEntriesFor, h, hhot,
      WebpackBrowserDevelopmentConfiguration.devServerHostUrl, String.append_assoc]

/-- **C9** counterexample: for a dev-server target with both `hot` and
`devServer.reload` enabled, the produced `devServer.inline` is `false`,
not the boolean coercion of `devServer.reload` (which is `true`). -/
theorem c9_counterexample :
    ¬ ((WebpackBrowserDevelopmentConfiguration.assembledConfig hotReloadParams).map
        (fun config => config.devServer.map DevServerConfig.inline) =
      some (some hotReloadParams.target.devServer.reload)) := by
  decide

/-- **C9** witness: the amended theorem at the hot dev-server params —
the port defaults to 2509 and `public` is absent for the default host. -/
theorem c9_dev_server_section_amended_witness :
    ∃ config ds,
      WebpackBrowserDevelopmentConfiguration.assembledConfig hotReloadParams = some config ∧
      config.devServer = some ds ∧
      (hotReloadParams.target.devServer.port = none → ds.port = 2509) ∧
      (hotReloadParams.target.devServer.host = none → ds.«public» = none) ∧
      (jsOrStr hotReloadParams.target.devServer.host "localhost" = "localhost" →
        ds.«public» = none) ∧
      (jsOrStr hotReloadParams.target.devServer.host "localhost" ≠ "localhost" →
        ds.«public» = some (jsOrStr hotReloadParams.target.devServer.host "localhost")) ∧
      (hotReloadParams.target.hot = false →
        ds.inline = hotReloadParams.target.devServer.reload) ∧
      (hotReloadParams.target.hot = true → ds.inline = false) ∧
      (hotReloadParams.target.hot = true →
        ∃ restUrl,
          (WebpackBrowserDevelopmentConfiguration.hotEntriesFor
              hotReloadParams.target).headD "" =
            "webpack-dev-server/client?"
              ++ WebpackBrowserDevelopmentConfiguration.urlScheme
                  hotReloadParams.target.devServer.https
              ++ "://" ++ restUrl) :=
  c9_dev_server_section_amended hotReloadParams rfl (by decide)

/-- **C10**: the hot-entry injection touches only the module list of the
first entry key; every other entry key keeps exactly its original module
list (and when there are no hot entries even the first is unchanged). -/
theorem c10_frame_other_entries (ps : ConfigurationParams) (entryName : String)
    (mods : List String) (rest : EntryMap)
    (hentry : ps.entry = (entryName, mods) :: rest) :
    ∃ config mods2,
      WebpackBrowserDevelopmentConfiguration.assembledConfig ps = some config ∧
      config.entry = (entryName, mods2) :: rest ∧
      (WebpackBrowserDevelopmentConfiguration.hotEntriesFor ps.target = [] →
        mods2 = mods) := by
  by_cases hl : (WebpackBrowserDevelopmentConfiguration.hotEntriesFor ps.target).length = 0
  · have hinj :
        WebpackBrowserDevelopmentConfiguration.injectEntries
            (WebpackBrowserDevelopmentConfiguration.hotEntriesFor ps.target) ps.entry =
          some ((entryName, mods) :: rest) := by
      rw [hentry]
      simp [WebpackBrowserDevelopmentConfiguration.injectEntries, hl]
    have hassem :
        ∃ config, WebpackBrowserDevelopmentConfiguration.assembledConfig ps = some config ∧
          config.entry = (entryName, mods) :: rest := by
      unfold WebpackBrowserDevelopmentConfiguration.assembledConfig
      rw [hinj]
      exact ⟨_, rfl, rfl⟩
    obtain ⟨config, hc, he⟩ := hassem
    exact ⟨config, mods, hc, he, fun _ => rfl⟩
  · have hinj :
        WebpackBrowserDevelopmentConfiguration.injectEntries
            (WebpackBrowserDevelopmentConfiguration.hotEntriesFor ps.target) ps.entry =
          some ((entryName,
            WebpackBrowserDevelopmentConfiguration.injectHotEntries
              (WebpackBrowserDevelopmentConfiguration.hotEntriesFor ps.target) mods)
            :: rest) := by
      rw [hentry]
      simp [WebpackBrowserDevelopmentConfiguration.injectEntries, hl]
    have hassem :
        ∃ config, WebpackBrowserDevelopmentConfiguration.assembledConfig ps = some config ∧
          config.entry =
            (entryName,
              WebpackBrowserDevelopmentConfiguration.injectHotEntries
                (WebpackBrowserDevelopmentConfiguration.hotEntriesFor ps.target) mods)
              :: rest := by
      unfold WebpackBrowserDevelopmentConfiguration.assembledConfig
      rw [hinj]
      exact ⟨_, rfl, rfl⟩
    obtain ⟨config, hc, he⟩ := hassem
    exact ⟨config, _, hc, he, fun hemp => absurd (by simp [hemp]) hl⟩

/-- **C10** witness: for a two-key entry mapping under a hot build, the
second key's module list comes back untouched. -/
theorem c10_frame_other_entries_witness :
    ∃ config mods2,
      WebpackBrowserDevelopmentConfiguration.assembledConfig twoEntryParams = some config ∧
      config.entry = ("main", mods2) :: [("admin", ["admin.js"])] ∧
      (WebpackBrowserDevelopmentConfiguration.hotEntriesFor twoEntryParams.target = [] →
        mods2 = ["index.js"]) :=
  c10_frame_other_entries twoEntryParams "main" ["index.js"] [("admin", ["admin.js"])] rfl

/-- **C8** witness: a `getFileSystem()` call before any compile-done hook
observes a pending future. -/
theorem c8_filesystem_future_witness :
    WebpackMiddlewares.getFileSystemResult
        (WebpackMiddlewares.mwRun (WebpackMiddlewares.mwInit Nat)
          [WebpackMiddlewares.MwEvent.getFileSystemCall]) = none :=
  (c8_filesystem_future Nat).2.1 [WebpackMiddlewares.MwEvent.getFileSystemCall]
    (fun _ he => by simpa using he)
